import Mathlib

/-!
Verification of the slideshow command builder (`ffmpeg.py`).

The program probes each audio file's duration with an external tool,
builds one encode argument list (inputs, a filter-graph expression, fixed
encode parameters) and spawns the encoder once.  Strings are modelled as
Lean `String`/`List Char`; the durations parsed from the probe's output
are modelled as rationals (the numeric rendering of a duration inside the
argument list is abstracted as `toString`, since no claim constrains its
digits); the outcome of one probe subprocess is modelled by the inductive
`ProbeResult`, whose constructors correspond one-to-one to the branches of
`get_duration`'s try/except dispatch.  `sys.exit(1)` is modelled by the
`Outcome.exited` constructor (a non-zero process exit carrying the printed
diagnostic), and every spawned external command line is recorded in a
trace so that "no process spawned" claims are statable.
-/

namespace Slideshow

/-- Python's single-character `str.replace`: every occurrence of the
needle character is replaced by the replacement string, all other
characters are kept.  Every `replace` call in `ffmpeg.py` has a
one-character needle, so this is the semantics of each pass. -/
def replaceChar (needle : Char) (repl : List Char) (s : List Char) : List Char :=
  s.flatMap fun c => if c = needle then repl else [c]

/-- List-level text escaping, `ffmpeg.py` line 78: five chained `replace`
calls, applied left to right — apostrophe, colon, open bracket, close
bracket, comma. -/
def escTextL (s : List Char) : List Char :=
  replaceChar ',' ['\\', ',']
    (replaceChar ']' ['\\', ']']
      (replaceChar '[' ['\\', '[']
        (replaceChar ':' ['\\', ':']
          (replaceChar '\'' ['\\', '\''] s))))

/-- `escaped_text_content`, `ffmpeg.py` line 78. -/
def escaped_text_content (text_content : String) : String :=
  String.mk (escTextL text_content.data)

/-- The five characters the text-escaping pass treats as special. -/
def textSpecial (c : Char) : Bool :=
  c = '\'' || c = ':' || c = '[' || c = ']' || c = ','

/-- Modelled from the spec's words for C3: insert a single backslash
immediately before each special character of the input, leave every other
character of the input unaltered. -/
def specEscapeText (s : List Char) : List Char :=
  s.flatMap fun c => if textSpecial c then ['\\', c] else [c]

/-- A character Python's `shlex.quote` leaves unquoted (the complement of
CPython's `_find_unsafe` character class, compiled with `re.ASCII`): ASCII
alphanumerics, underscore, at sign, percent, plus, equals, colon, comma,
dot, slash, hyphen. -/
def shlexSafeChar (c : Char) : Bool :=
  c.isAlpha || c.isDigit ||
    (c = '_' || c = '@' || c = '%' || c = '+' || c = '=' ||
     c = ':' || c = ',' || c = '.' || c = '/' || c = '-')

/-- Python's `shlex.quote`: the empty string becomes a pair of quotes, a
string of safe characters is returned unchanged, anything else is wrapped
in single quotes with each inner apostrophe replaced by the five-character
sequence quote, double quote, quote, double quote, quote. -/
def shlex_quote (s : String) : String :=
  if s = "" then "''"
  else if s.data.all shlexSafeChar then s
  else "'" ++ String.mk (replaceChar '\'' ("'\"'\"'").data s.data) ++ "'"

/-- List-level font-path escaping, `ffmpeg.py` line 77 after the
`shlex.quote`: replace backslash by double backslash, then apostrophe by
backslash-apostrophe. -/
def escFontL (s : List Char) : List Char :=
  replaceChar '\'' ['\\', '\''] (replaceChar '\\' ['\\', '\\'] s)

/-- `escaped_font_file`, `ffmpeg.py` line 77: `shlex.quote` first, then
the two filter-language escape replacements. -/
def escaped_font_file (font_file : String) : String :=
  String.mk (escFontL (shlex_quote font_file).data)

/-- Modelled from the spec's words for C5: one backslash-escaping pass
over the quoted path that escapes every backslash and every apostrophe
and alters nothing else. -/
def specEscapeFont (s : List Char) : List Char :=
  s.flatMap fun c => if c = '\\' || c = '\'' then ['\\', c] else [c]

theorem replaceChar_append (needle : Char) (repl : List Char) (a b : List Char) :
    replaceChar needle repl (a ++ b) =
      replaceChar needle repl a ++ replaceChar needle repl b := by
  simp [replaceChar]

theorem escTextL_append (a b : List Char) :
    escTextL (a ++ b) = escTextL a ++ escTextL b := by
  simp [escTextL, replaceChar_append]

theorem escFontL_append (a b : List Char) :
    escFontL (a ++ b) = escFontL a ++ escFontL b := by
  simp [escFontL, replaceChar_append]

theorem escTextL_singleton (c : Char) :
    escTextL [c] = if textSpecial c then ['\\', c] else [c] := by
  by_cases h1 : c = '\''
  · subst h1; rfl
  by_cases h2 : c = ':'
  · subst h2; rfl
  by_cases h3 : c = '['
  · subst h3; rfl
  by_cases h4 : c = ']'
  · subst h4; rfl
  by_cases h5 : c = ','
  · subst h5; rfl
  simp [escTextL, replaceChar, textSpecial, h1, h2, h3, h4, h5]

theorem escTextL_eq_spec (s : List Char) : escTextL s = specEscapeText s := by
  induction s with
  | nil => rfl
  | cons c s ih =>
    have hc : (c :: s) = [c] ++ s := rfl
    rw [hc, escTextL_append, escTextL_singleton, ih]
    simp [specEscapeText]

theorem escFontL_singleton (c : Char) :
    escFontL [c] = if c = '\\' || c = '\'' then ['\\', c] else [c] := by
  by_cases h1 : c = '\\'
  · subst h1; rfl
  by_cases h2 : c = '\''
  · subst h2; rfl
  simp [escFontL, replaceChar, h1, h2]

theorem escFontL_eq_spec (s : List Char) : escFontL s = specEscapeFont s := by
  induction s with
  | nil => rfl
  | cons c s ih =>
    have hc : (c :: s) = [c] ++ s := rfl
    rw [hc, escFontL_append, escFontL_singleton, ih]
    simp [specEscapeFont]

/-- `video_concat_inputs`, `ffmpeg.py` line 72: the joined video-stream
references of the image inputs. -/
def video_concat_inputs (num_files : Nat) : String :=
  String.join ((List.range num_files).map fun i => "[" ++ toString i ++ ":v]")

/-- `audio_concat_inputs`, `ffmpeg.py` line 73: the joined audio-stream
references of the audio inputs, whose positional indices start after the
image inputs. -/
def audio_concat_inputs (num_files : Nat) : String :=
  String.join ((List.range num_files).map fun i =>
    "[" ++ toString (num_files + i) ++ ":a]")

/-- Modelled from the spec's words for C1: the labelled reference to the
stream of kind `t` of the input at positional index `i`. -/
def streamRef (i : Nat) (t : String) : String :=
  "[" ++ toString i ++ ":" ++ t ++ "]"

/-- Modelled from the spec's words for C1: the concatenation of the
stream references of the inputs listed in `idxs`, in list order. -/
def refsConcat (idxs : List Nat) (t : String) : String :=
  String.join (idxs.map fun i => streamRef i t)

/-- First clause of the filter expression (`ffmpeg.py` line 82):
concatenate the video streams. -/
def videoClause (num_files : Nat) : String :=
  video_concat_inputs num_files ++ "concat=n=" ++ toString num_files ++
    ":v=1:a=0[v_slideshow]; "

/-- Second clause (`ffmpeg.py` line 83): concatenate the audio streams. -/
def audioClause (num_files : Nat) : String :=
  audio_concat_inputs num_files ++ "concat=n=" ++ toString num_files ++
    ":v=0:a=1[a_combined]; "

/-- Third clause (`ffmpeg.py` line 84): draw the escaped text centred on
the concatenated video stream. -/
def drawtextClause (font_file text_content : String) : String :=
  "[v_slideshow]drawtext=text='" ++ escaped_text_content text_content ++
    "':fontfile='" ++ escaped_font_file font_file ++
    "':fontsize=48:fontcolor=white:x=(w-text_w)/2:y=(h-text_h)/2[v_text]; "

/-- Fourth clause (`ffmpeg.py` line 85), copied verbatim: it names the
overlaid video and combined audio streams and carries `shortest=1`, but
the filter name between them is a corrupted non-ASCII token, and no
semicolon terminator follows it. -/
def mergeClause : String := "[v_text][a_combined] விகித=shortest=1"

/-- `filter_complex`, `ffmpeg.py` lines 81-86: the four clauses joined in
order. -/
def filter_complex (num_files : Nat) (font_file text_content : String) : String :=
  videoClause num_files ++ audioClause num_files ++
    drawtextClause font_file text_content ++ mergeClause

/-- The property C2 asserts of the filter expression: a concatenation of
four clauses each terminated by a semicolon followed by a space. -/
def fourSemiTerminated (s : String) : Prop :=
  ∃ c1 c2 c3 c4 : String,
    s = (c1 ++ "; ") ++ ((c2 ++ "; ") ++ ((c3 ++ "; ") ++ (c4 ++ "; ")))

/-- The `ffprobe` argument list, `ffmpeg.py` lines 9-15. -/
def probeCommand (filepath : String) : List String :=
  ["ffprobe", "-v", "error", "-show_entries", "format=duration", "-of",
   "json", filepath]

/-- Observable outcome of one probe subprocess together with the parsing
of its output; each constructor corresponds to one branch of the
try/except in `get_duration` (`ffmpeg.py` lines 16-30): the binary is
absent (`FileNotFoundError`), the tool exits non-zero
(`CalledProcessError`), its output is not parseable (`JSONDecodeError`),
the duration field is absent (`KeyError`), or a duration value is
parsed. -/
inductive ProbeResult where
  | notFound : ProbeResult
  | nonZeroExit : String → ProbeResult
  | badJson : ProbeResult
  | missingField : ProbeResult
  | duration : ℚ → ProbeResult
deriving DecidableEq

/-- `get_duration`, `ffmpeg.py` lines 7-30: return the parsed duration,
or exit non-zero (modelled by `Except.error` carrying the diagnostic
printed to stderr) on any failure. -/
def get_duration (filepath : String) (r : ProbeResult) : Except String ℚ :=
  match r with
  | .notFound =>
      .error "Error: ffprobe not found. Please ensure FFmpeg/FFprobe is installed and in your PATH."
  | .nonZeroExit e => .error ("Error running ffprobe on " ++ filepath ++ ": " ++ e)
  | .badJson => .error ("Error parsing ffprobe output for " ++ filepath)
  | .missingField => .error ("Error parsing ffprobe output for " ++ filepath)
  | .duration d => .ok d

/-- Whether a probe outcome makes `get_duration` exit instead of
returning a value. -/
def probeFails (r : ProbeResult) : Bool :=
  match r with
  | .duration _ => false
  | _ => true

/-- The duration the environment reports for an audio path (meaningful
only when `probeFails` is false there). -/
def envDuration (env : String → ProbeResult) (a : String) : ℚ :=
  match env a with
  | .duration d => d
  | _ => 0

/-- The probe loop, `ffmpeg.py` lines 50-54: strictly sequential and
fail-fast.  Returns the probe command lines attempted, in order, and
either all durations in input order or the first failure's diagnostic. -/
def probeAll (env : String → ProbeResult) : List String → List (List String) × Except String (List ℚ)
  | [] => ([], .ok [])
  | p :: ps =>
    match get_duration p (env p) with
    | .error d => ([probeCommand p], .error d)
    | .ok q =>
      let rest := probeAll env ps
      (probeCommand p :: rest.1, rest.2.map fun l => q :: l)

/-- The per-image input declarations, `ffmpeg.py` lines 61-62: `enumerate`
over the image paths, indexing the duration list positionally (`getD`
stands in for Python indexing; the call site guarantees the index is in
bounds). -/
def imageInputArgs (image_paths : List String) (audio_durations : List ℚ) : List String :=
  image_paths.enum.flatMap fun p =>
    ["-loop", "1", "-t", toString (audio_durations.getD p.1 0), "-i", p.2]

/-- The audio input declarations, `ffmpeg.py` lines 65-66. -/
def audioInputArgs (audio_paths : List String) : List String :=
  audio_paths.flatMap fun a => ["-i", a]

/-- The fixed encode parameters and output path, `ffmpeg.py` lines 91-100. -/
def outputArgs (output_path : String) : List String :=
  ["-c:v", "libx264", "-preset", "medium", "-crf", "23",
   "-c:a", "aac", "-b:a", "128k", "-shortest", "-y", output_path]

/-- The full encode argument list, `ffmpeg.py` lines 58-100. -/
def ffmpeg_command (image_paths audio_paths : List String) (audio_durations : List ℚ)
    (output_path font_file text_content : String) : List String :=
  ["ffmpeg"] ++ imageInputArgs image_paths audio_durations
    ++ audioInputArgs audio_paths
    ++ ["-filter_complex", filter_complex image_paths.length font_file text_content]
    ++ outputArgs output_path

/-- How a run ends: `exited d` models `sys.exit(1)` after printing the
diagnostic `d` (a non-zero process exit), `encoded cmd` models reaching
the single encoder invocation with argument list `cmd`. -/
inductive Outcome where
  | exited : String → Outcome
  | encoded : List String → Outcome
deriving DecidableEq

/-- A run's observable effects: the external command lines spawned, in
order, and how the run ended. -/
structure RunTrace where
  spawned : List (List String)
  outcome : Outcome
deriving DecidableEq

/-- `create_slideshow`, `ffmpeg.py` lines 33-111: validate the input
counts, probe every audio duration sequentially, build the encode
argument list and spawn the encoder.  (The encoder's own success or
failure happens after the last spawn and is not modelled.) -/
def create_slideshow (env : String → ProbeResult)
    (image_paths audio_paths : List String)
    (output_path font_file text_content : String) : RunTrace :=
  if image_paths.length ≠ audio_paths.length then
    ⟨[], .exited "Error: The number of image files and audio files must be the same."⟩
  else if image_paths.length = 0 then
    ⟨[], .exited "Error: No input files provided."⟩
  else
    match probeAll env audio_paths with
    | (attempts, .error d) => ⟨attempts, .exited d⟩
    | (attempts, .ok durs) =>
      let cmd := ffmpeg_command image_paths audio_paths durs
        output_path font_file text_content
      ⟨attempts ++ [cmd], .encoded cmd⟩

/-- Modelled from the spec's words for C6: one per-image input
declaration, looping the image for exactly the paired duration. -/
def imageDecl (d : ℚ) (img : String) : List String :=
  ["-loop", "1", "-t", toString d, "-i", img]

/-- Modelled from the spec's words for C6: one audio input declaration. -/
def audioDecl (a : String) : List String :=
  ["-i", a]

/-- The last character of a string, if any. -/
def lastChar (s : String) : Option Char :=
  s.data.getLast?

theorem str_append_assoc (a b c : String) : a ++ b ++ c = a ++ (b ++ c) := by
  ext1
  simp [String.data_append]

theorem data_ne_nil_of_ne_empty (b : String) (h : b ≠ "") : b.data ≠ [] := by
  intro hnil
  exact h (by cases b; simp_all)

theorem lastChar_append (a b : String) (h : b ≠ "") :
    lastChar (a ++ b) = lastChar b := by
  unfold lastChar
  rw [String.data_append, List.getLast?_append]
  cases hb : b.data.getLast? with
  | none => exact absurd (by simpa using hb) (data_ne_nil_of_ne_empty b h)
  | some c => rfl

theorem append_ne_empty_right (a b : String) (h : b ≠ "") : a ++ b ≠ "" := by
  intro he
  have : a.data ++ b.data = [] := by
    rw [← String.data_append, he]
  exact data_ne_nil_of_ne_empty b h (List.append_eq_nil.mp this).2

theorem streamRef_v (i : Nat) : streamRef i "v" = "[" ++ toString i ++ ":v]" := by
  unfold streamRef
  rw [str_append_assoc, str_append_assoc]
  rfl

theorem streamRef_a (i : Nat) : streamRef i "a" = "[" ++ toString i ++ ":a]" := by
  unfold streamRef
  rw [str_append_assoc, str_append_assoc]
  rfl

theorem videoClause_split (n : Nat) :
    videoClause n =
      (video_concat_inputs n ++ "concat=n=" ++ toString n ++
        ":v=1:a=0[v_slideshow]") ++ "; " := by
  unfold videoClause
  conv_rhs => rw [str_append_assoc]
  rfl

theorem audioClause_split (n : Nat) :
    audioClause n =
      (audio_concat_inputs n ++ "concat=n=" ++ toString n ++
        ":v=0:a=1[a_combined]") ++ "; " := by
  unfold audioClause
  conv_rhs => rw [str_append_assoc]
  rfl

theorem drawtextClause_split (font_file text_content : String) :
    drawtextClause font_file text_content =
      ("[v_slideshow]drawtext=text='" ++ escaped_text_content text_content ++
        "':fontfile='" ++ escaped_font_file font_file ++
        "':fontsize=48:fontcolor=white:x=(w-text_w)/2:y=(h-text_h)/2[v_text]") ++ "; " := by
  unfold drawtextClause
  conv_rhs => rw [str_append_assoc]
  rfl

theorem exists_duration_of_not_fails (env : String → ProbeResult) (a : String)
    (h : probeFails (env a) = false) : ∃ q, env a = ProbeResult.duration q := by
  cases he : env a
  case duration q => exact ⟨q, rfl⟩
  all_goals (rw [he] at h; simp [probeFails] at h)

theorem probeAll_ok (env : String → ProbeResult) (l : List String)
    (h : ∀ a ∈ l, probeFails (env a) = false) :
    probeAll env l = (l.map probeCommand, Except.ok (l.map (envDuration env))) := by
  induction l with
  | nil => rfl
  | cons p ps ih =>
    obtain ⟨q, hq⟩ := exists_duration_of_not_fails env p (h p (by simp))
    have hps := ih fun a ha => h a (by simp [ha])
    simp [probeAll, hq, get_duration, hps, Except.map, envDuration]

theorem probeAll_fail (env : String → ProbeResult) (pre post : List String) (p : String)
    (hpre : ∀ a ∈ pre, probeFails (env a) = false)
    (d : String) (hd : get_duration p (env p) = Except.error d) :
    probeAll env (pre ++ p :: post) = ((pre ++ [p]).map probeCommand, Except.error d) := by
  induction pre with
  | nil => simp [probeAll, hd]
  | cons a pre ih =>
    obtain ⟨q, hq⟩ := exists_duration_of_not_fails env a (hpre a (by simp))
    have hrest := ih fun x hx => hpre x (by simp [hx])
    simp [probeAll, hq, get_duration, hrest, Except.map]

theorem error_of_probeFails (filepath : String) (env : String → ProbeResult) (p : String)
    (hfail : probeFails (env p) = true) :
    ∃ d, get_duration filepath (env p) = Except.error d := by
  cases he : env p <;> simp [get_duration]
  rw [he] at hfail
  simp [probeFails] at hfail

theorem probeAll_congr (env1 env2 : String → ProbeResult) (l : List String)
    (h : ∀ a ∈ l, env1 a = env2 a) :
    probeAll env1 l = probeAll env2 l := by
  induction l with
  | nil => rfl
  | cons p ps ih =>
    have hp : env1 p = env2 p := h p (by simp)
    have hps := ih fun a ha => h a (by simp [ha])
    simp [probeAll, hp, hps]

theorem enumFrom_imageArgs (D : List ℚ) (imgs : List String) : ∀ (k : Nat),
    k + imgs.length ≤ D.length →
    (List.enumFrom k imgs).flatMap
        (fun p => ["-loop", "1", "-t", toString (D.getD p.1 0), "-i", p.2])
      = (imgs.zip (D.drop k)).flatMap (fun p => imageDecl p.2 p.1) := by
  induction imgs with
  | nil => intro k hk; rfl
  | cons im imgs ih =>
    intro k hk
    have hkD : k < D.length := by simp at hk; omega
    have hr := ih (k + 1) (by simp at hk ⊢; omega)
    rw [List.drop_eq_getElem_cons hkD]
    simp only [List.enumFrom, List.flatMap_cons, List.zip_cons_cons]
    rw [List.getD_eq_getElem D 0 hkD, hr]
    rfl

theorem imageInputArgs_zip (imgs : List String) (D : List ℚ)
    (h : imgs.length ≤ D.length) :
    imageInputArgs imgs D = (imgs.zip D).flatMap (fun p => imageDecl p.2 p.1) := by
  have he := enumFrom_imageArgs D imgs 0 (by omega)
  simpa [imageInputArgs, List.enum] using he

theorem flatMap_const_length {α β : Type} (l : List α) (f : α → List β) (k : Nat)
    (h : ∀ a, (f a).length = k) :
    (l.flatMap f).length = k * l.length := by
  induction l with
  | nil => simp
  | cons a l ih =>
    simp [List.flatMap_cons, ih, h]
    ring

/-- C3: the text-escaping transformation equals the one-pass insertion the
spec describes — every apostrophe, colon, open bracket, close bracket and
comma of the input gains a single backslash immediately before it and
every other input character is left unaltered; illustrated on the spec's
own example `Hi:there`. -/
theorem C3_text_escaping (text_content : String) :
    escaped_text_content text_content
        = String.mk (specEscapeText text_content.data)
      ∧ escaped_text_content "Hi:there" = "Hi\\:there" := by
  constructor
  · unfold escaped_text_content
    rw [escTextL_eq_spec]
  · rfl

/-- C5: the font-path value inserted into the filter expression is the
shell-quoted path with, afterwards, one backslash-escaping pass over the
quoted result that escapes every backslash and every apostrophe — the two
passes applied in that order. -/
theorem C5_font_escaping (font_file : String) :
    escaped_font_file font_file
      = String.mk (specEscapeFont (shlex_quote font_file).data) := by
  unfold escaped_font_file
  rw [escFontL_eq_spec]

/-- C1: the video-concat clause references exactly the stream indices
0..N-1, in increasing order, and the audio-concat clause exactly the
indices N..2N-1, in increasing order: the two joined reference strings
equal `refsConcat` over `List.range n` and `List.range' n n`, whose
members are characterised and pairwise increasing. -/
theorem C1_concat_stream_indices (n : Nat) :
    video_concat_inputs n = refsConcat (List.range n) "v"
      ∧ audio_concat_inputs n = refsConcat (List.range' n n) "a"
      ∧ (∀ i, i ∈ List.range n ↔ i < n)
      ∧ (∀ i, i ∈ List.range' n n ↔ n ≤ i ∧ i < n + n)
      ∧ List.Pairwise (· < ·) (List.range n)
      ∧ List.Pairwise (· < ·) (List.range' n n) := by
  refine ⟨?_, ?_, ?_, ?_, ?_, ?_⟩
  · simp [video_concat_inputs, refsConcat, streamRef_v]
  · simp only [audio_concat_inputs, refsConcat, List.range'_eq_map_range,
      List.map_map, streamRef_a]
    rfl
  · intro i; simp [List.mem_range]
  · intro i; simp [List.mem_range'_1]
  · exact List.pairwise_lt_range n
  · rw [List.range'_eq_map_range, List.pairwise_map]
    exact (List.pairwise_lt_range n).imp (by omega)

/-- C2 fails on the code at one paired input with font path `f` and text
`t`: were the filter expression a concatenation of four clauses each
terminated by a semicolon and a space, its last character would be a
space, but the expression built by the code ends in `1` — the final merge
clause carries no semicolon-space terminator. -/
theorem C2_counterexample : ¬ fourSemiTerminated (filter_complex 1 "f" "t") := by
  rintro ⟨c1, c2, c3, c4, h⟩
  have hsemi : ("; " : String) ≠ "" := by decide
  have h4 : c4 ++ "; " ≠ "" := append_ne_empty_right _ _ hsemi
  have h3 : (c3 ++ "; ") ++ (c4 ++ "; ") ≠ "" := append_ne_empty_right _ _ h4
  have h2 : (c2 ++ "; ") ++ ((c3 ++ "; ") ++ (c4 ++ "; ")) ≠ "" :=
    append_ne_empty_right _ _ h3
  have hlast : lastChar (filter_complex 1 "f" "t") = some ' ' := by
    rw [h, lastChar_append _ _ h2, lastChar_append _ _ h3,
      lastChar_append _ _ h4, lastChar_append _ _ hsemi]
    rfl
  rw [show lastChar (filter_complex 1 "f" "t") = some '1' from rfl] at hlast
  simp at hlast

/-- C2 amended: the filter expression is the concatenation of the four
clauses in the stated order — video concatenation, audio concatenation,
text overlay, then the merge fragment — but only the first three clauses
are terminated by a semicolon followed by a space; the final merge
fragment has no such terminator. -/
theorem C2_amended_filter_layout (n : Nat) (font_file text_content : String) :
    (∃ c1 c2 c3 : String,
        filter_complex n font_file text_content
          = (c1 ++ "; ") ++ ((c2 ++ "; ") ++ ((c3 ++ "; ") ++ mergeClause)))
      ∧ ¬ ∃ c4 : String, mergeClause = c4 ++ "; " := by
  constructor
  · refine ⟨video_concat_inputs n ++ "concat=n=" ++ toString n ++ ":v=1:a=0[v_slideshow]",
      audio_concat_inputs n ++ "concat=n=" ++ toString n ++ ":v=0:a=1[a_combined]",
      "[v_slideshow]drawtext=text='" ++ escaped_text_content text_content ++
        "':fontfile='" ++ escaped_font_file font_file ++
        "':fontsize=48:fontcolor=white:x=(w-text_w)/2:y=(h-text_h)/2[v_text]", ?_⟩
    unfold filter_complex
    rw [str_append_assoc, str_append_assoc, videoClause_split, audioClause_split,
      drawtextClause_split]
  · rintro ⟨c4, h⟩
    have hc : lastChar mergeClause = some ' ' := by
      rw [h, lastChar_append _ _ (by decide)]
      rfl
    rw [show lastChar mergeClause = some '1' from rfl] at hc
    simp at hc

/-- C4: when the image and audio sequences differ in length, or both are
empty, the run exits non-zero during validation with no external process
spawned — the trace of spawned command lines is empty and the outcome is
an exit, so neither a probe nor an encode invocation occurs. -/
theorem C4_validation_aborts (env : String → ProbeResult)
    (image_paths audio_paths : List String) (output_path font_file text_content : String)
    (h : image_paths.length ≠ audio_paths.length
          ∨ (image_paths = [] ∧ audio_paths = [])) :
    (create_slideshow env image_paths audio_paths output_path font_file text_content).spawned = []
      ∧ ∃ d, (create_slideshow env image_paths audio_paths output_path font_file
          text_content).outcome = Outcome.exited d := by
  rcases h with h | ⟨h1, h2⟩
  · unfold create_slideshow
    rw [if_pos h]
    exact ⟨rfl, _, rfl⟩
  · subst h1
    subst h2
    exact ⟨rfl, _, rfl⟩

/-- Witness for C4 at a concrete mismatched input: one image, no audio. -/
theorem C4_validation_aborts_witness :
    (create_slideshow (fun _ => ProbeResult.duration 1) ["a.jpg"] [] "out.mp4"
        "font.ttf" "hi").spawned = []
      ∧ ∃ d, (create_slideshow (fun _ => ProbeResult.duration 1) ["a.jpg"] [] "out.mp4"
          "font.ttf" "hi").outcome = Outcome.exited d :=
  C4_validation_aborts (fun _ => ProbeResult.duration 1) ["a.jpg"] [] "out.mp4"
    "font.ttf" "hi" (by decide)

/-- C6: on a valid run the encode argument list holds, after the program
name, exactly one looping image input declaration per image whose duration
flag carries the probed duration of the positionally paired audio file,
followed by exactly one input declaration per audio file in input order;
the declaration blocks number six and two tokens each, so their segments
measure 6N and 2N tokens for N pairs. -/
theorem C6_input_declarations (env : String → ProbeResult)
    (image_paths audio_paths : List String)
    (output_path font_file text_content : String)
    (hlen : image_paths.length = audio_paths.length) (hne : image_paths ≠ [])
    (hok : ∀ a ∈ audio_paths, probeFails (env a) = false) :
    (create_slideshow env image_paths audio_paths output_path font_file text_content).outcome
        = Outcome.encoded (["ffmpeg"]
            ++ (image_paths.zip (audio_paths.map (envDuration env))).flatMap
                (fun p => imageDecl p.2 p.1)
            ++ audio_paths.flatMap audioDecl
            ++ ["-filter_complex", filter_complex image_paths.length font_file text_content]
            ++ outputArgs output_path)
      ∧ ((image_paths.zip (audio_paths.map (envDuration env))).flatMap
            (fun p => imageDecl p.2 p.1)).length = 6 * image_paths.length
      ∧ (audio_paths.flatMap audioDecl).length = 2 * audio_paths.length
      ∧ (image_paths.zip (audio_paths.map (envDuration env))).length
          = image_paths.length := by
  have h1 : ¬ image_paths.length ≠ audio_paths.length := by omega
  have h2 : ¬ image_paths.length = 0 := fun h0 => hne (List.length_eq_zero.mp h0)
  have hzlen : (image_paths.zip (audio_paths.map (envDuration env))).length
      = image_paths.length := by
    simp [hlen]
  refine ⟨?_, ?_, ?_, hzlen⟩
  · unfold create_slideshow
    rw [if_neg h1, if_neg h2, probeAll_ok env audio_paths hok]
    show Outcome.encoded (ffmpeg_command image_paths audio_paths
      (audio_paths.map (envDuration env)) output_path font_file text_content) = _
    unfold ffmpeg_command
    rw [imageInputArgs_zip image_paths (audio_paths.map (envDuration env))
      (by simp [hlen])]
    rfl
  · rw [flatMap_const_length _ (fun p : String × ℚ => imageDecl p.2 p.1) 6 fun p => rfl,
      hzlen]
  · exact flatMap_const_length _ audioDecl 2 fun a => rfl

/-- Witness for C6 at the spec's own two-pair scenario with every probe
reporting duration 5. -/
theorem C6_input_declarations_witness :
    (create_slideshow (fun _ => ProbeResult.duration 5) ["a.jpg", "b.jpg"]
        ["a.mp3", "b.mp3"] "out.mp4" "font.ttf" "Hi").outcome
        = Outcome.encoded (["ffmpeg"]
            ++ ((["a.jpg", "b.jpg"].zip (["a.mp3", "b.mp3"].map
                  (envDuration fun _ => ProbeResult.duration 5))).flatMap
                (fun p => imageDecl p.2 p.1))
            ++ ["a.mp3", "b.mp3"].flatMap audioDecl
            ++ ["-filter_complex",
                filter_complex (["a.jpg", "b.jpg"] : List String).length "font.ttf" "Hi"]
            ++ outputArgs "out.mp4")
      ∧ (((["a.jpg", "b.jpg"] : List String).zip (["a.mp3", "b.mp3"].map
            (envDuration fun _ => ProbeResult.duration 5))).flatMap
            (fun p => imageDecl p.2 p.1)).length
          = 6 * (["a.jpg", "b.jpg"] : List String).length
      ∧ ((["a.mp3", "b.mp3"] : List String).flatMap audioDecl).length
          = 2 * (["a.mp3", "b.mp3"] : List String).length
      ∧ ((["a.jpg", "b.jpg"] : List String).zip (["a.mp3", "b.mp3"].map
            (envDuration fun _ => ProbeResult.duration 5))).length
          = (["a.jpg", "b.jpg"] : List String).length :=
  C6_input_declarations (fun _ => ProbeResult.duration 5) ["a.jpg", "b.jpg"]
    ["a.mp3", "b.mp3"] "out.mp4" "font.ttf" "Hi" (by decide) (by decide) (by decide)

/-- C7 fails on the code: nothing in `get_duration` checks the sign of the
parsed duration, so a probe whose output carries the parseable value -1
makes `get_duration` return the negative duration -1. -/
theorem C7_counterexample :
    get_duration "x.mp3" (ProbeResult.duration (-1)) = Except.ok (-1)
      ∧ ((-1 : ℚ) < 0) :=
  ⟨rfl, by norm_num⟩

/-- C7 amended: every duration value `get_duration` returns is exactly the
value parsed from the probe's duration field, passed through with no
non-negativity validation — so it is a non-negative seconds value
precisely when the probe reported one. -/
theorem C7_amended_passthrough (filepath : String) (r : ProbeResult) (d : ℚ)
    (h : get_duration filepath r = Except.ok d) :
    r = ProbeResult.duration d := by
  cases r <;> simp [get_duration] at h ⊢
  all_goals exact h

/-- Witness for C7's amended theorem at a probe reporting duration 2. -/
theorem C7_amended_passthrough_witness :
    get_duration "a.mp3" (ProbeResult.duration 2) = Except.ok 2
      ∧ ProbeResult.duration (2 : ℚ) = ProbeResult.duration 2 :=
  ⟨rfl, C7_amended_passthrough "a.mp3" (ProbeResult.duration 2) 2 rfl⟩

/-- C8: the encode argument list ends with the fixed parameters in order —
video codec, preset, quality, audio codec, audio bitrate, the
stop-at-shortest flag, the overwrite flag — and finally the output
path. -/
theorem C8_fixed_tail (image_paths audio_paths : List String)
    (audio_durations : List ℚ) (output_path font_file text_content : String) :
    ["-c:v", "libx264", "-preset", "medium", "-crf", "23", "-c:a", "aac",
        "-b:a", "128k", "-shortest", "-y", output_path]
      <:+ ffmpeg_command image_paths audio_paths audio_durations output_path
            font_file text_content := by
  unfold ffmpeg_command
  exact List.suffix_append _ _

/-- C9: if the first failing probe is at audio path `p` (binary absent,
non-zero tool exit, unparseable output or missing duration field) and
every earlier probe succeeded, the run exits non-zero with that probe's
diagnostic; the trace shows one probe invocation per audio file up to and
including `p` and nothing else — no retry, no later probe, no encode. -/
theorem C9_probe_failure_aborts (env : String → ProbeResult)
    (image_paths pre post : List String) (p : String)
    (output_path font_file text_content : String)
    (hlen : image_paths.length = (pre ++ p :: post).length)
    (hne : image_paths ≠ [])
    (hpre : ∀ a ∈ pre, probeFails (env a) = false)
    (hfail : probeFails (env p) = true) :
    ∃ d, get_duration p (env p) = Except.error d
      ∧ create_slideshow env image_paths (pre ++ p :: post) output_path font_file
          text_content = ⟨(pre ++ [p]).map probeCommand, Outcome.exited d⟩ := by
  obtain ⟨d, hd⟩ := error_of_probeFails p env p hfail
  refine ⟨d, hd, ?_⟩
  have h1 : ¬ image_paths.length ≠ (pre ++ p :: post).length := by omega
  have h2 : ¬ image_paths.length = 0 := fun h0 => hne (List.length_eq_zero.mp h0)
  unfold create_slideshow
  rw [if_neg h1, if_neg h2, probeAll_fail env pre post p hpre d hd]

/-- Witness for C9: a single pair whose probe finds no binary. -/
theorem C9_probe_failure_aborts_witness :
    ∃ d, get_duration "x.mp3" ProbeResult.notFound = Except.error d
      ∧ create_slideshow (fun _ => ProbeResult.notFound) ["a.jpg"]
          ([] ++ "x.mp3" :: []) "o.mp4" "f.ttf" "hi"
          = ⟨([] ++ ["x.mp3"]).map probeCommand, Outcome.exited d⟩ :=
  C9_probe_failure_aborts (fun _ => ProbeResult.notFound) ["a.jpg"] [] [] "x.mp3"
    "o.mp4" "f.ttf" "hi" (by decide) (by decide) (by decide) (by decide)

/-- C10: the whole run — argument lists, filter expression and trace — is
a deterministic pure function of the input sequences, output path, font
path, text and the probed durations: two runs whose probe environments
agree on every audio path are identical. -/
theorem C10_deterministic_build (env1 env2 : String → ProbeResult)
    (image_paths audio_paths : List String)
    (output_path font_file text_content : String)
    (h : ∀ a ∈ audio_paths, env1 a = env2 a) :
    create_slideshow env1 image_paths audio_paths output_path font_file text_content
      = create_slideshow env2 image_paths audio_paths output_path font_file
          text_content := by
  unfold create_slideshow
  rw [probeAll_congr env1 env2 audio_paths h]

/-- Witness for C10: two distinct probe environments agreeing on the one
audio path give character-for-character identical runs. -/
theorem C10_deterministic_build_witness :
    create_slideshow (fun _ => ProbeResult.duration 3) ["i.jpg"] ["a.mp3"]
        "o.mp4" "f.ttf" "txt"
      = create_slideshow
          (fun a => if a = "a.mp3" then ProbeResult.duration 3 else ProbeResult.notFound)
          ["i.jpg"] ["a.mp3"] "o.mp4" "f.ttf" "txt" :=
  C10_deterministic_build _ _ ["i.jpg"] ["a.mp3"] "o.mp4" "f.ttf" "txt" (by decide)

end Slideshow
